import Mathlib

/-!
Verification of the deepsharebackend repository: a shallow embedding of
`src/retrieve_cid.py` (IPFS gateway fallback retrieval, content sniffing and
local rendering) and of the two upload endpoints of `src/main.py`.

Modelling conventions:
* Raw byte strings are `List Nat` (each entry one byte, 0..255); decoded text
  is a `List Nat` of Unicode code points.
* The network (`requests.get`) is an oracle `Gateway → NetResult` giving, for
  each candidate gateway, either an HTTP response (status, response headers,
  body) or a transport-level exception (`requests.exceptions.RequestException`).
* File writes are modelled as returned `SavedFile` values (name + contents).
* The Python standard-library behaviours the scripts rely on (`json.loads`,
  `json.dumps`, `bytes.decode("utf-8")`) are implemented faithfully below;
  the external Pillow call `Image.open` is an oracle `Bytes → Bool` (whether
  the library recognises the bytes as an image), and the pinning provider of
  `main.py` is an oracle returning the CID for each upload call.
-/

namespace DeepShare

/-- Raw byte strings (and, where noted, lists of Unicode code points). -/
abbrev Bytes := List Nat

/-- Python `content.startswith(pat)`: the first argument is the pattern. -/
def bytesStartWith : Bytes → Bytes → Bool
  | [], _ => true
  | _ :: _, [] => false
  | p :: ps, c :: cs => p == c && bytesStartWith ps cs

/-- Python slicing `s[:10]` on a text string (character-wise). -/
def take10 (s : String) : String := ⟨s.data.take 10⟩

/-- Code points of a Lean string literal (used for Python string constants). -/
def strToCps (s : String) : List Nat := s.data.map Char.toNat

/-- Python `bytes.decode("utf-8")`: strict UTF-8 decoding to code points.
Rejects continuation-byte leads, overlong forms, surrogates and values above
U+10FFFF, exactly as CPython's strict codec does; `none` models
`UnicodeDecodeError`. -/
def utf8Decode : Bytes → Option (List Nat)
  | [] => some []
  | b :: bs =>
    if b < 0x80 then (utf8Decode bs).map (fun r => b :: r)
    else if b < 0xC2 then none
    else if b ≤ 0xDF then
      match bs with
      | b1 :: bs2 =>
        if 0x80 ≤ b1 && b1 ≤ 0xBF then
          (utf8Decode bs2).map (fun r => ((b - 0xC0) * 0x40 + (b1 - 0x80)) :: r)
        else none
      | [] => none
    else if b ≤ 0xEF then
      match bs with
      | b1 :: b2 :: bs3 =>
        let lo1 := if b == 0xE0 then 0xA0 else 0x80
        let hi1 := if b == 0xED then 0x9F else 0xBF
        if lo1 ≤ b1 && b1 ≤ hi1 && 0x80 ≤ b2 && b2 ≤ 0xBF then
          (utf8Decode bs3).map
            (fun r => ((b - 0xE0) * 0x1000 + (b1 - 0x80) * 0x40 + (b2 - 0x80)) :: r)
        else none
      | _ => none
    else if b ≤ 0xF4 then
      match bs with
      | b1 :: b2 :: b3 :: bs4 =>
        let lo1 := if b == 0xF0 then 0x90 else 0x80
        let hi1 := if b == 0xF4 then 0x8F else 0xBF
        if lo1 ≤ b1 && b1 ≤ hi1 && 0x80 ≤ b2 && b2 ≤ 0xBF && 0x80 ≤ b3 && b3 ≤ 0xBF then
          (utf8Decode bs4).map
            (fun r => ((b - 0xF0) * 0x40000 + (b1 - 0x80) * 0x1000
                        + (b2 - 0x80) * 0x40 + (b3 - 0x80)) :: r)
        else none
      | _ => none
    else none

/-- JSON whitespace, as in CPython's `json` module (`[ \t\n\r]`). -/
def isJsonWs (c : Nat) : Bool := c == 0x20 || c == 0x09 || c == 0x0A || c == 0x0D

/-- ASCII decimal digit. -/
def isDigit (c : Nat) : Bool := 0x30 ≤ c && c ≤ 0x39

/-- Skip JSON whitespace. -/
def skipWs : List Nat → List Nat
  | c :: cs => if isJsonWs c then skipWs cs else c :: cs
  | [] => []

/-- Value of an ASCII hex digit. -/
def hexVal (c : Nat) : Option Nat :=
  if 0x30 ≤ c && c ≤ 0x39 then some (c - 0x30)
  else if 0x41 ≤ c && c ≤ 0x46 then some (c - 0x37)
  else if 0x61 ≤ c && c ≤ 0x66 then some (c - 0x57)
  else none

/-- Maximal run of decimal digits and the remaining input. -/
def takeDigits : List Nat → (List Nat × List Nat)
  | c :: cs =>
    if isDigit c then
      let p := takeDigits cs
      (c :: p.1, p.2)
    else ([], c :: cs)
  | [] => ([], [])

/-- Decimal digit characters to a natural number. -/
def digitsToNat (ds : List Nat) : Nat := ds.foldl (fun acc c => acc * 10 + (c - 0x30)) 0

/-- Values produced by Python's `json.loads`.  Strings are lists of code
points; object keys keep insertion order (Python `dict`).  Floating-point
literals keep their source token: the scripts never compute with the float
values, so IEEE arithmetic is not modelled. -/
inductive JVal where
  | jnull : JVal
  | jbool : Bool → JVal
  | jint : Int → JVal
  | jfloat : List Nat → JVal
  | jstr : List Nat → JVal
  | jarr : List JVal → JVal
  | jobj : List (List Nat × JVal) → JVal

mutual

/-- Structural equality of parsed JSON values (Python `==` restricted to the
comparisons the script performs, which only ever compare strings). -/
def jvalBeq : JVal → JVal → Bool
  | .jnull, .jnull => true
  | .jbool a, .jbool b => a == b
  | .jint a, .jint b => a == b
  | .jfloat a, .jfloat b => a == b
  | .jstr a, .jstr b => a == b
  | .jarr a, .jarr b => jvalBeqList a b
  | .jobj a, .jobj b => jvalBeqFields a b
  | _, _ => false

/-- Elementwise equality of JSON arrays. -/
def jvalBeqList : List JVal → List JVal → Bool
  | [], [] => true
  | x :: xs, y :: ys => jvalBeq x y && jvalBeqList xs ys
  | _, _ => false

/-- Elementwise equality of JSON object fields. -/
def jvalBeqFields : List (List Nat × JVal) → List (List Nat × JVal) → Bool
  | [], [] => true
  | (k1, v1) :: xs, (k2, v2) :: ys => k1 == k2 && jvalBeq v1 v2 && jvalBeqFields xs ys
  | _, _ => false

end

instance : BEq JVal := ⟨jvalBeq⟩

/-- Python `dict` insertion `d[key] = v`: replaces in place if the key exists,
appends otherwise (insertion order preserved, as `json.loads` builds objects). -/
def dictInsert (key : List Nat) (v : JVal) : List (List Nat × JVal) → List (List Nat × JVal)
  | [] => [(key, v)]
  | (k2, v2) :: rest => if k2 == key then (k2, v) :: rest else (k2, v2) :: dictInsert key v rest

/-- Lookahead after a high surrogate escape: `true` when the input starts with
`\u` not followed by four hex digits, in which case CPython's `_decode_uXXXX`
raises a `JSONDecodeError`. -/
def uEscErrAhead : List Nat → Bool
  | 0x5C :: 0x75 :: rest =>
    match rest with
    | g1 :: g2 :: g3 :: g4 :: _ =>
      !((hexVal g1).isSome && (hexVal g2).isSome && (hexVal g3).isSome && (hexVal g4).isSome)
    | _ => true
  | _ => false

/-- Lookahead after a high surrogate escape: the value of a following
`\uXXXX` escape when it is a low surrogate (U+DC00..U+DFFF). -/
def lowSurrogateAhead : List Nat → Option Nat
  | 0x5C :: 0x75 :: g1 :: g2 :: g3 :: g4 :: _ =>
    match hexVal g1, hexVal g2, hexVal g3, hexVal g4 with
    | some a, some b, some c, some d =>
      let u2 := a * 0x1000 + b * 0x100 + c * 0x10 + d
      if 0xDC00 ≤ u2 && u2 ≤ 0xDFFF then some u2 else none
    | _, _, _, _ => none
  | _ => none

/-- CPython `json` string scanning, after the opening quote: returns the decoded
string value (code points) and the rest of the input.  The fuel argument only
bounds the recursion depth; every recursive call shortens the input, so the
callers' `length + 1` fuel always suffices.  Handles the short
escapes, `\uXXXX` escapes with surrogate-pair combination (lone surrogates are
kept, as Python does), and rejects unescaped control characters (strict mode). -/
def parseStr : Nat → List Nat → Option (List Nat × List Nat)
  | 0, _ => none
  | _ + 1, [] => none
  | fuel + 1, c :: cs =>
    if c == 0x22 then some ([], cs)
    else if c == 0x5C then
      match cs with
      | [] => none
      | e :: cs2 =>
        if e == 0x22 then (parseStr fuel cs2).map (fun p => (0x22 :: p.1, p.2))
        else if e == 0x5C then (parseStr fuel cs2).map (fun p => (0x5C :: p.1, p.2))
        else if e == 0x2F then (parseStr fuel cs2).map (fun p => (0x2F :: p.1, p.2))
        else if e == 0x62 then (parseStr fuel cs2).map (fun p => (0x08 :: p.1, p.2))
        else if e == 0x66 then (parseStr fuel cs2).map (fun p => (0x0C :: p.1, p.2))
        else if e == 0x6E then (parseStr fuel cs2).map (fun p => (0x0A :: p.1, p.2))
        else if e == 0x72 then (parseStr fuel cs2).map (fun p => (0x0D :: p.1, p.2))
        else if e == 0x74 then (parseStr fuel cs2).map (fun p => (0x09 :: p.1, p.2))
        else if e == 0x75 then
          match cs2 with
          | h1 :: h2 :: h3 :: h4 :: cs3 =>
            match hexVal h1, hexVal h2, hexVal h3, hexVal h4 with
            | some a, some b, some c2, some d =>
              let u := a * 0x1000 + b * 0x100 + c2 * 0x10 + d
              if 0xD800 ≤ u && u ≤ 0xDBFF then
                if uEscErrAhead cs3 then none
                else
                  match lowSurrogateAhead cs3 with
                  | some u2 =>
                    (parseStr fuel (cs3.drop 6)).map
                      (fun p => ((0x10000 + (u - 0xD800) * 0x400 + (u2 - 0xDC00)) :: p.1, p.2))
                  | none => (parseStr fuel cs3).map (fun p => (u :: p.1, p.2))
              else (parseStr fuel cs3).map (fun p => (u :: p.1, p.2))
            | _, _, _, _ => none
          | _ => none
        else none
    else if c < 0x20 then none
    else (parseStr fuel cs).map (fun p => (c :: p.1, p.2))
/-- Optional fraction group of the `json` number regex (`(\.\d+)?`): the rest of
the input after the group if it matches. -/
def parseFracPart : List Nat → Option (List Nat)
  | 0x2E :: d :: tl => if isDigit d then some (takeDigits tl).2 else none
  | _ => none

/-- Optional exponent group of the `json` number regex (`([eE][-+]?\d+)?`). -/
def parseExpPart : List Nat → Option (List Nat)
  | e :: tl =>
    if e == 0x65 || e == 0x45 then
      let tl2 := match tl with
                 | sg :: tlA => if sg == 0x2B || sg == 0x2D then tlA else tl
                 | [] => tl
      match tl2 with
      | d :: tl3 => if isDigit d then some (takeDigits tl3).2 else none
      | [] => none
    else none
  | [] => none

/-- The `json` number regex `-?(0|[1-9]\d*)(\.\d+)?([eE][-+]?\d+)?` at the head
of the input.  An integer match yields `jint` (Python `int`), any fraction or
exponent yields `jfloat` carrying the matched token. -/
def parseNumberTok (s : List Nat) : Option (JVal × List Nat) :=
  let headInt : Option (Bool × List Nat × List Nat) :=
    match s with
    | 0x2D :: c :: cs =>
      if c == 0x30 then some (true, [c], cs)
      else if isDigit c then
        let p := takeDigits cs
        some (true, c :: p.1, p.2)
      else none
    | 0x2D :: [] => none
    | c :: cs =>
      if c == 0x30 then some (false, [c], cs)
      else if isDigit c then
        let p := takeDigits cs
        some (false, c :: p.1, p.2)
      else none
    | [] => none
  match headInt with
  | none => none
  | some (neg, ds, r1) =>
    let fr := parseFracPart r1
    let r2 := fr.getD r1
    let ex := parseExpPart r2
    let r3 := ex.getD r2
    if fr.isNone && ex.isNone then
      some (.jint (if neg then -(digitsToNat ds : Int) else (digitsToNat ds : Int)), r1)
    else
      some (.jfloat (s.take (s.length - r3.length)), r3)

mutual

/-- CPython `json` scanner `scan_once`: one JSON value at the head of the
input, returning the value and the rest.  The fuel argument bounds recursion
depth (CPython likewise fails on deeply nested input via `RecursionError`). -/
def parseVal : Nat → List Nat → Option (JVal × List Nat)
  | 0, _ => none
  | f + 1, s =>
    match s with
    | [] => none
    | c :: cs =>
      if c == 0x22 then (parseStr (cs.length + 1) cs).map (fun p => (JVal.jstr p.1, p.2))
      else if c == 0x7B then
        match skipWs cs with
        | 0x7D :: rest => some (JVal.jobj [], rest)
        | s1 => parseMembers f s1 []
      else if c == 0x5B then
        match skipWs cs with
        | 0x5D :: rest => some (JVal.jarr [], rest)
        | s1 => parseElems f s1 []
      else if bytesStartWith (strToCps "null") s then some (JVal.jnull, s.drop 4)
      else if bytesStartWith (strToCps "true") s then some (JVal.jbool true, s.drop 4)
      else if bytesStartWith (strToCps "false") s then some (JVal.jbool false, s.drop 5)
      else
        match parseNumberTok s with
        | some r => some r
        | none =>
          if bytesStartWith (strToCps "NaN") s then some (JVal.jfloat (strToCps "NaN"), s.drop 3)
          else if bytesStartWith (strToCps "Infinity") s then
            some (JVal.jfloat (strToCps "Infinity"), s.drop 8)
          else if bytesStartWith (strToCps "-Infinity") s then
            some (JVal.jfloat (strToCps "-Infinity"), s.drop 9)
          else none

/-- Members of a JSON object after `{` (when not immediately closed):
`"key" ws : ws value ws (, ws ...)* }`, building the dict in insertion order. -/
def parseMembers : Nat → List Nat → List (List Nat × JVal) → Option (JVal × List Nat)
  | 0, _, _ => none
  | f + 1, s, acc =>
    match s with
    | 0x22 :: cs =>
      match parseStr (cs.length + 1) cs with
      | none => none
      | some (key, afterKey) =>
        match skipWs afterKey with
        | 0x3A :: afterColon =>
          match parseVal f (skipWs afterColon) with
          | none => none
          | some (v, afterVal) =>
            let acc2 := dictInsert key v acc
            match skipWs afterVal with
            | 0x7D :: rest => some (JVal.jobj acc2, rest)
            | 0x2C :: afterComma => parseMembers f (skipWs afterComma) acc2
            | _ => none
        | _ => none
    | _ => none

/-- Elements of a JSON array after `[` (when not immediately closed). -/
def parseElems : Nat → List Nat → List JVal → Option (JVal × List Nat)
  | 0, _, _ => none
  | f + 1, s, acc =>
    match parseVal f s with
    | none => none
    | some (v, afterVal) =>
      match skipWs afterVal with
      | 0x5D :: rest => some (JVal.jarr (v :: acc).reverse, rest)
      | 0x2C :: afterComma => parseElems f (skipWs afterComma) (v :: acc)
      | _ => none

end

/-- Python `json.loads` on decoded text (code points): scan one value after
leading whitespace and require only whitespace afterwards (`Extra data`
otherwise); `none` models a raised `JSONDecodeError`. -/
def jsonLoads (cps : List Nat) : Option JVal :=
  match parseVal (2 * cps.length + 4) (skipWs cps) with
  | some (v, rest) => if skipWs rest == [] then some v else none
  | none => none

/-- Lowercase hex digit character for a value below 16. -/
def hexDigitCh (n : Nat) : Nat := if n < 10 then 0x30 + n else 0x57 + n

/-- A `\uXXXX` escape (lowercase hex), as `json.dumps` emits with the default
`ensure_ascii=True`. -/
def uEsc (c : Nat) : List Nat :=
  [0x5C, 0x75, hexDigitCh (c / 0x1000 % 16), hexDigitCh (c / 0x100 % 16),
   hexDigitCh (c / 0x10 % 16), hexDigitCh (c % 16)]

/-- Escaping of one string character by `json.dumps` (`ensure_ascii=True`):
short escapes for the usual controls, `\uXXXX` for everything outside printable
ASCII, surrogate pairs above U+FFFF. -/
def escCh (c : Nat) : List Nat :=
  if c == 0x22 then [0x5C, 0x22]
  else if c == 0x5C then [0x5C, 0x5C]
  else if c == 0x08 then [0x5C, 0x62]
  else if c == 0x0C then [0x5C, 0x66]
  else if c == 0x0A then [0x5C, 0x6E]
  else if c == 0x0D then [0x5C, 0x72]
  else if c == 0x09 then [0x5C, 0x74]
  else if c < 0x20 || c > 0x7E then
    if 0x10000 ≤ c then
      uEsc (0xD800 + (c - 0x10000) / 0x400) ++ uEsc (0xDC00 + (c - 0x10000) % 0x400)
    else uEsc c
  else [c]

/-- `json.dumps` rendering of a string value, quotes included. -/
def dumpsStr (s : List Nat) : List Nat := [0x22] ++ (s.map escCh).flatten ++ [0x22]

/-- Indentation emitted by `json.dumps(..., indent=2)` at a nesting level. -/
def indentCps (lvl : Nat) : List Nat := List.replicate (2 * lvl) 0x20

/-- `json.dumps` rendering of a scalar value (shared by both serializers).
Integers print in decimal; float tokens are kept as scanned (see `JVal`). -/
def dumpsScalar : JVal → List Nat
  | .jnull => strToCps "null"
  | .jbool true => strToCps "true"
  | .jbool false => strToCps "false"
  | .jint n => strToCps (toString n)
  | .jfloat tok => tok
  | .jstr s => dumpsStr s
  | .jarr _ => []
  | .jobj _ => []

mutual

/-- `json.dumps(v, indent=2)` at a nesting level, as `display_json` writes the
parsed value to the `.json` artifact (its line 125).  Empty containers render
without newlines; other containers put each item on its own indented line,
with `": "` between key and value. -/
def dumpsVal (lvl : Nat) : JVal → List Nat
  | .jarr [] => [0x5B, 0x5D]
  | .jarr (x :: xs) =>
    [0x5B, 0x0A] ++ indentCps (lvl + 1) ++ dumpsVal (lvl + 1) x ++
      dumpsArrRest (lvl + 1) xs ++ [0x0A] ++ indentCps lvl ++ [0x5D]
  | .jobj [] => [0x7B, 0x7D]
  | .jobj ((k, v) :: kvs) =>
    [0x7B, 0x0A] ++ indentCps (lvl + 1) ++ dumpsStr k ++ [0x3A, 0x20] ++
      dumpsVal (lvl + 1) v ++ dumpsObjRest (lvl + 1) kvs ++ [0x0A] ++ indentCps lvl ++ [0x7D]
  | v => dumpsScalar v

/-- Remaining array items under `indent=2` (item separator `,` + newline). -/
def dumpsArrRest (lvl : Nat) : List JVal → List Nat
  | [] => []
  | x :: xs => [0x2C, 0x0A] ++ indentCps lvl ++ dumpsVal lvl x ++ dumpsArrRest lvl xs

/-- Remaining object items under `indent=2`. -/
def dumpsObjRest (lvl : Nat) : List (List Nat × JVal) → List Nat
  | [] => []
  | (k, v) :: kvs =>
    [0x2C, 0x0A] ++ indentCps lvl ++ dumpsStr k ++ [0x3A, 0x20] ++ dumpsVal lvl v ++
      dumpsObjRest lvl kvs

end

mutual

/-- `json.dumps(v, separators=(",", ":"))`, the compact serialization
`upload_json_capture` applies to the metadata dict before pinning it. -/
def dumpsCompact : JVal → List Nat
  | .jarr [] => [0x5B, 0x5D]
  | .jarr (x :: xs) => [0x5B] ++ dumpsCompact x ++ dumpsCompactArr xs ++ [0x5D]
  | .jobj [] => [0x7B, 0x7D]
  | .jobj ((k, v) :: kvs) =>
    [0x7B] ++ dumpsStr k ++ [0x3A] ++ dumpsCompact v ++ dumpsCompactObj kvs ++ [0x7D]
  | v => dumpsScalar v

/-- Remaining compact array items. -/
def dumpsCompactArr : List JVal → List Nat
  | [] => []
  | x :: xs => [0x2C] ++ dumpsCompact x ++ dumpsCompactArr xs

/-- Remaining compact object items. -/
def dumpsCompactObj : List (List Nat × JVal) → List Nat
  | [] => []
  | (k, v) :: kvs => [0x2C] ++ dumpsStr k ++ [0x3A] ++ dumpsCompact v ++ dumpsCompactObj kvs

end

/-- One gateway candidate of `retrieve_from_ipfs` (`retrieve_cid.py` lines
31-46): request URL, request headers, display name. -/
structure Gateway where
  url : String
  headers : List (String × String)
  name : String
deriving DecidableEq

/-- Outcome of one `requests.get(url, headers=headers, timeout=30)` call:
either an HTTP response (status code, response headers, body bytes) or a
raised `requests.exceptions.RequestException` (connection error, timeout,
DNS failure...). -/
inductive NetResult where
  | response : Nat → List (String × String) → Bytes → NetResult
  | transportError : NetResult
deriving DecidableEq

/-- Python truthiness of an optional string (`if PINATA_JWT:` on an `os.getenv`
result, `image.filename or ...`): an unset variable and an empty string are
both falsy. -/
def pyTruthy : Option String → Bool
  | none => false
  | some s => s != ""

/-- The gateway candidate list of `retrieve_from_ipfs` (lines 27-46): start
empty, append the authenticated Pinata gateway when a JWT is configured, then
extend with the four public candidates. -/
def buildGateways (pinataGateway : String) (pinataJWT : Option String) (cid : String) :
    List Gateway :=
  let gateways : List Gateway := []
  let gateways :=
    if pyTruthy pinataJWT then
      gateways ++ [⟨"https://" ++ pinataGateway ++ "/ipfs/" ++ cid,
                    [("Authorization", "Bearer " ++ pinataJWT.getD "")],
                    "Pinata Authenticated Gateway (JWT)"⟩]
    else gateways
  gateways ++
    [⟨"https://ipfs.io/ipfs/" ++ cid, [], "IPFS.io Public Gateway"⟩,
     ⟨"https://gateway.pinata.cloud/ipfs/" ++ cid, [], "Pinata Public Gateway"⟩,
     ⟨"https://dweb.link/ipfs/" ++ cid, [], "Protocol Labs dweb.link"⟩,
     ⟨"https://" ++ pinataGateway ++ "/ipfs/" ++ cid, [], "Custom Pinata Gateway"⟩]

/-- The body of a request outcome when it is an HTTP 200 response (the only
case `retrieve_from_ipfs` treats as success). -/
def successBody : NetResult → Option Bytes
  | .response s _ body => if s = 200 then some body else none
  | .transportError => none

/-- The `for i, gateway in enumerate(gateways)` loop of `retrieve_from_ipfs`
(lines 48-79): one GET per candidate, in order; status 200 returns the body at
once; 403, 404, any other status and any transport exception all `continue`;
falling off the loop yields `None`.  The second component is the list of
candidates actually requested, in request order (each loop iteration issues
exactly one request). -/
def tryGateways (net : Gateway → NetResult) : List Gateway → Option Bytes × List Gateway
  | [] => (none, [])
  | g :: rest =>
    match net g with
    | .response s _ body =>
      if s = 200 then (some body, [g])
      else
        let r := tryGateways net rest
        (r.1, g :: r.2)
    | .transportError =>
      let r := tryGateways net rest
      (r.1, g :: r.2)

/-- `retrieve_from_ipfs(cid)`: build the candidate list from the environment
configuration and run the fallback loop; `none` is the `return None` of line
79. -/
def retrieve_from_ipfs (pinataGateway : String) (pinataJWT : Option String)
    (net : Gateway → NetResult) (cid : String) : Option Bytes :=
  (tryGateways net (buildGateways pinataGateway pinataJWT cid)).1

/-- One artifact written to the working directory: filename and the exact
bytes written. -/
structure SavedFile where
  name : String
  contents : Bytes
deriving DecidableEq

/-- Python `key in v` for a string key against a parsed JSON value: key lookup
for dicts, membership for lists (a string only ever equals a string), substring
test for strings; `none` models the `TypeError` raised on the scalar types. -/
def jMem (key : List Nat) : JVal → Option Bool
  | .jobj fields => some (fields.any (fun kv => kv.1 == key))
  | .jarr xs => some (xs.any (fun x => x == JVal.jstr key))
  | .jstr s => some ((s.tails.map (fun t => bytesStartWith key t)).any id)
  | _ => none

/-- Python `v.get(key, dflt)`: only dicts have `.get`; `none` models the
`AttributeError` raised otherwise. -/
def jGetOpt (key : List Nat) (dflt : JVal) : JVal → Option JVal
  | .jobj fields => some (((fields.find? (fun kv => kv.1 == key)).map Prod.snd).getD dflt)
  | _ => none

/-- Python `len(v)`: defined for strings, lists and dicts; `none` models the
`TypeError` raised on the scalar types. -/
def jLen : JVal → Option Nat
  | .jstr s => some s.length
  | .jarr xs => some xs.length
  | .jobj fields => some fields.length
  | _ => none

/-- Python `v[key]` for a string key: dict lookup only (`none` models the
`TypeError` of indexing a list or string with a string, the `KeyError` of a
missing key, and the unsubscriptable scalar types). -/
def jSubscript (key : List Nat) : JVal → Option JVal
  | .jobj fields => (fields.find? (fun kv => kv.1 == key)).map Prod.snd
  | _ => none

/-- Python slicing `v[:30]` / `v[-30:]` succeeds exactly on strings and lists
among parsed JSON values. -/
def jSliceable : JVal → Bool
  | .jstr _ => true
  | .jarr _ => true
  | _ => false

/-- The informational section of `display_json` (lines 129-142): it only
prints, but its dynamic-typed lookups can raise on unexpected payload shapes;
`none` models an exception escaping to the routine's generic handler. -/
def infoSection (data : JVal) : Option Unit := do
  let hasData ← jMem (strToCps "data") data
  if hasData then
    let dataObj ← jGetOpt (strToCps "data") (JVal.jobj []) data
    let hasBase ← jMem (strToCps "baseImage") dataObj
    if hasBase then
      let v ← jSubscript (strToCps "baseImage") dataObj
      let _ ← jLen v
    let hasDepthImg ← jMem (strToCps "depthImage") dataObj
    if hasDepthImg then
      let v2 ← jGetOpt (strToCps "depthImage") (JVal.jstr []) dataObj
      let _ ← jLen v2
    let hasDepthData ← jMem (strToCps "depthData") dataObj
    if hasDepthData then
      let dd ← jGetOpt (strToCps "depthData") (JVal.jobj []) dataObj
      let _ ← jGetOpt (strToCps "shape") (JVal.jstr (strToCps "N/A")) dd
      let _ ← jGetOpt (strToCps "valid_pixels") (JVal.jstr (strToCps "N/A")) dd
    let hasSig ← jMem (strToCps "signature") data
    if hasSig then
      let sig ← jGetOpt (strToCps "signature") (JVal.jstr []) data
      if jSliceable sig then pure () else none
  pure ()

/-- Whether the informational section of `display_json` raises. -/
def infoRaises (data : JVal) : Bool := (infoSection data).isNone

/-- `display_image(content, cid)` (lines 81-108): if Pillow opens the bytes,
print the image description and save the raw bytes as
`retrieved_{cid[:10]}.jpg`; on any exception save the raw bytes as
`retrieved_{cid[:10]}.bin`.  The inner `img.show()` is wrapped in its own
bare `except` and cannot escape. -/
def display_image (imageOpens : Bytes → Bool) (content : Bytes) (cid : String) : SavedFile :=
  if imageOpens content then
    ⟨"retrieved_" ++ take10 cid ++ ".jpg", content⟩
  else
    ⟨"retrieved_" ++ take10 cid ++ ".bin", content⟩

/-- `display_json(content, cid)` (lines 110-158), as the list of files it
writes, in order: UTF-8 decode then `json.loads`; on success the parsed value
is re-serialized with `indent=2` into `retrieved_{cid[:10]}.json`, and the
informational section may then still raise, in which case the generic handler
additionally saves the raw bytes as `.bin`; a `JSONDecodeError` saves the raw
bytes as `.txt`; any other exception (in particular a `UnicodeDecodeError`)
saves the raw bytes as `.bin`. -/
def display_json (content : Bytes) (cid : String) : List SavedFile :=
  match utf8Decode content with
  | none => [⟨"retrieved_" ++ take10 cid ++ ".bin", content⟩]
  | some cps =>
    match jsonLoads cps with
    | none => [⟨"retrieved_" ++ take10 cid ++ ".txt", content⟩]
    | some v =>
      ⟨"retrieved_" ++ take10 cid ++ ".json", dumpsVal 0 v⟩ ::
        (if infoRaises v then [⟨"retrieved_" ++ take10 cid ++ ".bin", content⟩] else [])

/-- The classification labels of the content sniffing in `main` (lines
186-214): JPEG signature, PNG signature, JSON (leading brace/bracket or
decodable-and-parsable), Pillow-recognised image, unknown binary. -/
inductive ContentClass where
  | jpeg : ContentClass
  | png : ContentClass
  | json : ContentClass
  | pilImage : ContentClass
  | unknown : ContentClass
deriving DecidableEq

/-- The classification chain of `main` (lines 186-214), as a label.  It reads
nothing but the payload bytes (plus the Pillow oracle for the generic-image
attempt): signatures first, then a literal first-byte check for brace or
bracket, then UTF-8 decode + JSON parse, then `Image.open`, else unknown. -/
def classifyBytes (imageOpens : Bytes → Bool) (content : Bytes) : ContentClass :=
  if bytesStartWith [0xFF, 0xD8, 0xFF] content then .jpeg
  else if bytesStartWith [0x89, 0x50, 0x4E, 0x47] content then .png
  else if bytesStartWith [0x7B] content || bytesStartWith [0x5B] content then .json
  else
    match utf8Decode content with
    | some cps =>
      if (jsonLoads cps).isSome then .json
      else if imageOpens content then .pilImage
      else .unknown
    | none => if imageOpens content then .pilImage else .unknown

/-- The per-payload body of `main`'s loop (lines 186-218): route the retrieved
bytes to `display_image` / `display_json` along the classification chain;
the unknown branch saves the raw bytes as `retrieved_{cid[:10]}.bin` inline. -/
def processContent (imageOpens : Bytes → Bool) (content : Bytes) (cid : String) :
    List SavedFile :=
  if bytesStartWith [0xFF, 0xD8, 0xFF] content then [display_image imageOpens content cid]
  else if bytesStartWith [0x89, 0x50, 0x4E, 0x47] content then
    [display_image imageOpens content cid]
  else if bytesStartWith [0x7B] content || bytesStartWith [0x5B] content then
    display_json content cid
  else
    match utf8Decode content with
    | some cps =>
      if (jsonLoads cps).isSome then display_json content cid
      else if imageOpens content then [display_image imageOpens content cid]
      else [⟨"retrieved_" ++ take10 cid ++ ".bin", content⟩]
    | none =>
      if imageOpens content then [display_image imageOpens content cid]
      else [⟨"retrieved_" ++ take10 cid ++ ".bin", content⟩]

/-- First byte of a payload that is not JSON whitespace (spec-side notion used
to state the classification claim about leading whitespace). -/
def firstNonWsByte : Bytes → Option Nat
  | [] => none
  | c :: cs => if isJsonWs c then firstNonWsByte cs else some c

/-- One iteration of `main`'s batch loop for one identifier: retrieval then,
unless retrieval exhausted all gateways (`continue`), classification and
rendering. -/
def runOne (imageOpens : Bytes → Bool) (pinataGateway : String) (pinataJWT : Option String)
    (net : Gateway → NetResult) (cid : String) : Option (List SavedFile) :=
  match retrieve_from_ipfs pinataGateway pinataJWT net cid with
  | none => none
  | some content => some (processContent imageOpens content cid)

/-- The batch loop of `main` (lines 179-218) over the identifier list, with the
per-identifier network oracle: identifiers are processed strictly in input
order and a failed retrieval moves on to the next identifier. -/
def runBatch (imageOpens : Bytes → Bool) (pinataGateway : String) (pinataJWT : Option String)
    (net : String → Gateway → NetResult) : List String → List (String × Option (List SavedFile))
  | [] => []
  | cid :: rest =>
    (cid, runOne imageOpens pinataGateway pinataJWT (net cid) cid) ::
      runBatch imageOpens pinataGateway pinataJWT net rest

/-- The classification label a retrieval run assigns to an identifier (if the
payload is retrieved at all). -/
def runClassify (imageOpens : Bytes → Bool) (pinataGateway : String) (pinataJWT : Option String)
    (net : Gateway → NetResult) (cid : String) : Option ContentClass :=
  (retrieve_from_ipfs pinataGateway pinataJWT net cid).map (classifyBytes imageOpens)

/-- Erase the response headers from a request outcome (the script reads only
`status_code` and `content`). -/
def eraseRespHeaders : NetResult → NetResult
  | .response s _ body => .response s [] body
  | .transportError => .transportError

/-- The `(wallet_address, image_cid, metadata_cid)` tuple that
`store_in_supabase` posts to the record store's `images` table
(`main.py` lines 120-139). -/
structure SupabaseRecord where
  wallet_address : String
  image_cid : String
  metadata_cid : String
deriving DecidableEq

/-- The JSON body of a successful upload endpoint response. -/
structure UploadResponse where
  cid : String
  metadata_cid : Option String
  gateway_url : String
  wallet_address : String
deriving DecidableEq

/-- The `/upload` endpoint `upload_capture` (`main.py` lines 226-273).  The
pinning provider (`upload_to_ipfs`, an HTTP collaborator) is an oracle
`pin callIdx fileData filename keyvalues` returning the CID; call index 0 is
the single upload this endpoint performs.  Invalid metadata JSON yields HTTP
400; metadata that parses to a non-dict raises a `TypeError` on the
`metadata_dict["wallet_address"]` assignment, which the catch-all turns into
HTTP 500.  On success the record store receives the one CID as both
`image_cid` and `metadata_cid` (line 258). -/
def upload_capture (pin : Nat → Bytes → String → JVal → String) (pinataGateway : String)
    (wallet_address : String) (imageData : Bytes) (imageFilename : Option String)
    (metadata : List Nat) : Except Nat (SupabaseRecord × UploadResponse) :=
  match jsonLoads metadata with
  | none => .error 400
  | some v =>
    match v with
    | .jobj fields =>
      let fields2 := dictInsert (strToCps "wallet_address") (.jstr (strToCps wallet_address)) fields
      let filename :=
        if pyTruthy imageFilename then imageFilename.getD ""
        else "capture_" ++ take10 wallet_address ++ ".jpg"
      let cid := pin 0 imageData filename (.jobj fields2)
      .ok (⟨wallet_address, cid, cid⟩,
           ⟨cid, none, "https://" ++ pinataGateway ++ "/ipfs/" ++ cid, wallet_address⟩)
    | _ => .error 500

/-- The `/upload-json` endpoint `upload_json_capture` (`main.py` lines
276-342).  Two pin calls: index 0 uploads the image bytes, index 1 uploads the
compact-serialized metadata dict (augmented with `wallet_address` and
`image_cid`).  Non-dict metadata raises on the line-311 assignment — after the
image was already pinned — and becomes HTTP 500.  On success the record store
receives the image CID and the metadata CID as distinct fields (line 325). -/
def upload_json_capture (pin : Nat → Bytes → String → JVal → String) (pinataGateway : String)
    (wallet_address : String) (imageData : Bytes) (metadata : List Nat) (timestamp : Nat) :
    Except Nat (SupabaseRecord × UploadResponse) :=
  match jsonLoads metadata with
  | none => .error 400
  | some v =>
    let image_filename := "original_" ++ take10 wallet_address ++ "_" ++ toString timestamp ++ ".jpg"
    let image_cid := pin 0 imageData image_filename
      (.jobj [(strToCps "wallet_address", .jstr (strToCps wallet_address)),
              (strToCps "type", .jstr (strToCps "original_image"))])
    match v with
    | .jobj fields =>
      let fields2 := dictInsert (strToCps "wallet_address") (.jstr (strToCps wallet_address)) fields
      let fields3 := dictInsert (strToCps "image_cid") (.jstr (strToCps image_cid)) fields2
      let json_bytes := dumpsCompact (.jobj fields3)
      let json_filename :=
        "metadata_" ++ take10 wallet_address ++ "_" ++ toString timestamp ++ ".json"
      let json_cid := pin 1 json_bytes json_filename
        (.jobj [(strToCps "wallet_address", .jstr (strToCps wallet_address)),
                (strToCps "type", .jstr (strToCps "metadata")),
                (strToCps "image_cid", .jstr (strToCps image_cid))])
      .ok (⟨wallet_address, image_cid, json_cid⟩,
           ⟨image_cid, some json_cid,
            "https://" ++ pinataGateway ++ "/ipfs/" ++ image_cid, wallet_address⟩)
    | _ => .error 500

/-- C1: for every gateway configuration, if the candidate at position `i` is
the first (in priority order) whose request comes back as HTTP 200, the
fallback loop returns exactly that response's body, and the requests actually
issued are precisely the candidates up to and including position `i` — no
request reaches any later candidate. -/
theorem resolver_short_circuit (net : Gateway → NetResult) :
    ∀ (gws : List Gateway) (i : Nat) (hi : i < gws.length) (b : Bytes),
      successBody (net (gws.get ⟨i, hi⟩)) = some b →
      (∀ j, (hj : j < i) → successBody (net (gws.get ⟨j, Nat.lt_trans hj hi⟩)) = none) →
      tryGateways net gws = (some b, gws.take (i + 1)) := by
  intro gws
  induction gws with
  | nil => intro i hi; exact absurd hi (Nat.not_lt_zero i)
  | cons g rest ih =>
    intro i hi b hsucc hprev
    cases i with
    | zero =>
      have hsucc0 : successBody (net g) = some b := hsucc
      cases hng : net g with
      | response s hd body =>
        rw [hng] at hsucc0
        unfold successBody at hsucc0
        by_cases hs : s = 200
        · subst hs
          simp at hsucc0
          subst hsucc0
          simp [tryGateways, hng]
        · simp [hs] at hsucc0
      | transportError =>
        rw [hng] at hsucc0
        simp [successBody] at hsucc0
    | succ i2 =>
      have hi2 : i2 < rest.length := Nat.lt_of_succ_lt_succ hi
      have hg0 : successBody (net g) = none :=
        hprev 0 (Nat.succ_pos i2)
      have hsucc2 : successBody (net (rest.get ⟨i2, hi2⟩)) = some b := hsucc
      have hprev2 : ∀ j, (hj : j < i2) →
          successBody (net (rest.get ⟨j, Nat.lt_trans hj hi2⟩)) = none := by
        intro j hj
        exact hprev (j + 1) (Nat.succ_lt_succ hj)
      have hrest := ih i2 hi2 b hsucc2 hprev2
      unfold tryGateways
      cases hng : net g with
      | response s hd body =>
        rw [hng] at hg0
        unfold successBody at hg0
        by_cases hs : s = 200
        · simp [hs] at hg0
        · simp [hs, hrest, List.take]
      | transportError => simp [hrest, List.take]

/-- C1 witness: with no JWT configured and a network on which the first public
candidate answers 404 and the second answers 200 with body `[0xAB]`, the loop
returns that body having requested exactly the first two candidates. -/
theorem resolver_short_circuit_witness :
    tryGateways
        (fun g => if g.name = "Pinata Public Gateway" then NetResult.response 200 [] [0xAB]
                  else NetResult.response 404 [] [])
        (buildGateways "example.com" none "QmX") =
      (some [0xAB], (buildGateways "example.com" none "QmX").take 2) := by
  have hi : 1 < (buildGateways "example.com" none "QmX").length := by decide
  refine resolver_short_circuit _ _ 1 hi [0xAB] ?_ ?_
  · rfl
  · intro j hj
    have hj0 : j = 0 := Nat.lt_one_iff.mp hj
    subst hj0
    rfl

/-- C2: if every configured candidate's request comes back as a non-200 status
or a transport error, the fallback loop returns `none` (an explicit not-found
value, not an exception) after having requested every configured candidate
exactly once, in priority order; accordingly `retrieve_from_ipfs` returns
`none`. -/
theorem resolver_exhaustion (net : Gateway → NetResult) :
    (∀ gws : List Gateway, (∀ g ∈ gws, successBody (net g) = none) →
        tryGateways net gws = (none, gws)) ∧
    (∀ (host cid : String) (jwt : Option String),
        (∀ g ∈ buildGateways host jwt cid, successBody (net g) = none) →
        retrieve_from_ipfs host jwt net cid = none) := by
  have main : ∀ gws : List Gateway, (∀ g ∈ gws, successBody (net g) = none) →
      tryGateways net gws = (none, gws) := by
    intro gws
    induction gws with
    | nil => intro _; rfl
    | cons g rest ih =>
      intro h
      have hg := h g (List.mem_cons_self g rest)
      have hrest := ih (fun g2 hg2 => h g2 (List.mem_cons_of_mem g hg2))
      unfold tryGateways
      cases hng : net g with
      | response s hd body =>
        rw [hng] at hg
        unfold successBody at hg
        by_cases hs : s = 200
        · simp [hs] at hg
        · simp [hs, hrest]
      | transportError => simp [hrest]
  refine ⟨main, fun host cid jwt h => ?_⟩
  unfold retrieve_from_ipfs
  rw [main _ h]

/-- C2 witness: with a JWT configured and every candidate answering 404, the
loop visits all five candidates in order and the resolver reports not-found. -/
theorem resolver_exhaustion_witness :
    tryGateways (fun _ => NetResult.response 404 [] [])
        (buildGateways "example.com" (some "tok") "QmY") =
      (none, buildGateways "example.com" (some "tok") "QmY") ∧
    retrieve_from_ipfs "example.com" (some "tok") (fun _ => NetResult.response 404 [] []) "QmY" =
      none :=
  ⟨(resolver_exhaustion (fun _ => NetResult.response 404 [] [])).1 _ (fun _ _ => rfl),
   (resolver_exhaustion (fun _ => NetResult.response 404 [] [])).2 "example.com" "QmY"
     (some "tok") (fun _ _ => rfl)⟩

/-- C3: the candidate list is, in this order: the authenticated primary
gateway with the bearer-token header (present exactly when a JWT is
configured), then ipfs.io, the pinning provider's public gateway, dweb.link,
and the primary gateway again without auth headers; absence of the token
(unset, or the falsy empty string) removes only the first candidate. -/
theorem gateway_priority_list (host cid t : String) (ht : t ≠ "") :
    buildGateways host (some t) cid =
      [⟨"https://" ++ host ++ "/ipfs/" ++ cid, [("Authorization", "Bearer " ++ t)],
        "Pinata Authenticated Gateway (JWT)"⟩,
       ⟨"https://ipfs.io/ipfs/" ++ cid, [], "IPFS.io Public Gateway"⟩,
       ⟨"https://gateway.pinata.cloud/ipfs/" ++ cid, [], "Pinata Public Gateway"⟩,
       ⟨"https://dweb.link/ipfs/" ++ cid, [], "Protocol Labs dweb.link"⟩,
       ⟨"https://" ++ host ++ "/ipfs/" ++ cid, [], "Custom Pinata Gateway"⟩] ∧
    buildGateways host none cid =
      [⟨"https://ipfs.io/ipfs/" ++ cid, [], "IPFS.io Public Gateway"⟩,
       ⟨"https://gateway.pinata.cloud/ipfs/" ++ cid, [], "Pinata Public Gateway"⟩,
       ⟨"https://dweb.link/ipfs/" ++ cid, [], "Protocol Labs dweb.link"⟩,
       ⟨"https://" ++ host ++ "/ipfs/" ++ cid, [], "Custom Pinata Gateway"⟩] ∧
    buildGateways host (some "") cid = buildGateways host none cid ∧
    (buildGateways host (some t) cid).tail = buildGateways host none cid := by
  have htruthy : pyTruthy (some t) = true := by
    unfold pyTruthy
    exact bne_iff_ne.mpr ht
  refine ⟨?_, ?_, ?_, ?_⟩ <;>
    simp [buildGateways, pyTruthy, htruthy, ht]

/-- C3 witness: the two list shapes at a concrete host, identifier and token. -/
theorem gateway_priority_list_witness :
    buildGateways "example.com" (some "tok") "QmZ" =
      [⟨"https://example.com/ipfs/QmZ", [("Authorization", "Bearer tok")],
        "Pinata Authenticated Gateway (JWT)"⟩,
       ⟨"https://ipfs.io/ipfs/QmZ", [], "IPFS.io Public Gateway"⟩,
       ⟨"https://gateway.pinata.cloud/ipfs/QmZ", [], "Pinata Public Gateway"⟩,
       ⟨"https://dweb.link/ipfs/QmZ", [], "Protocol Labs dweb.link"⟩,
       ⟨"https://example.com/ipfs/QmZ", [], "Custom Pinata Gateway"⟩] ∧
    (buildGateways "example.com" (some "tok") "QmZ").tail =
      buildGateways "example.com" none "QmZ" := by
  have h := gateway_priority_list "example.com" "QmZ" "tok" (by decide)
  exact ⟨by rw [h.1]; decide, h.2.2.2⟩

/-- C9: whatever the environment configuration, the candidate list contains
the four public gateways, has length at least four, and in particular is never
empty — the "zero configured candidates" edge case is unreachable. -/
theorem gateways_never_empty (host cid : String) (jwt : Option String) :
    4 ≤ (buildGateways host jwt cid).length ∧
    buildGateways host jwt cid ≠ [] ∧
    (⟨"https://ipfs.io/ipfs/" ++ cid, [], "IPFS.io Public Gateway"⟩ : Gateway)
        ∈ buildGateways host jwt cid ∧
    (⟨"https://gateway.pinata.cloud/ipfs/" ++ cid, [], "Pinata Public Gateway"⟩ : Gateway)
        ∈ buildGateways host jwt cid ∧
    (⟨"https://dweb.link/ipfs/" ++ cid, [], "Protocol Labs dweb.link"⟩ : Gateway)
        ∈ buildGateways host jwt cid ∧
    (⟨"https://" ++ host ++ "/ipfs/" ++ cid, [], "Custom Pinata Gateway"⟩ : Gateway)
        ∈ buildGateways host jwt cid := by
  cases h : pyTruthy jwt <;> simp [buildGateways, h]

/-- C7: the batch driver processes identifiers one at a time in input order
(every input identifier gets exactly one entry, in order), and an identifier
whose retrieval exhausts all gateways does not terminate the run: with two
identifiers where the first fails, the second is still processed and its
outcome reported. -/
theorem batch_continues_after_failure (imageOpens : Bytes → Bool) (host : String)
    (jwt : Option String) (net : String → Gateway → NetResult) :
    (∀ cids : List String,
        (runBatch imageOpens host jwt net cids).map Prod.fst = cids) ∧
    (∀ a b : String,
        retrieve_from_ipfs host jwt (net a) a = none →
        runBatch imageOpens host jwt net [a, b] =
          [(a, none), (b, runOne imageOpens host jwt (net b) b)]) := by
  constructor
  · intro cids
    induction cids with
    | nil => rfl
    | cons c cs ih => simp [runBatch, ih]
  · intro a b h
    simp [runBatch, runOne, h]

/-- C7 witness: the identifier "fail" misses on every gateway while "ok"
succeeds with a JSON body; the run still reports the second identifier's
rendered artifact after the first one's failure. -/
theorem batch_continues_after_failure_witness :
    runBatch (fun _ => false) "example.com" none
        (fun cid _ => if cid = "ok" then NetResult.response 200 [] [0x7B, 0x7D]
                      else NetResult.transportError)
        ["fail", "ok"] =
      [("fail", none), ("ok", some [⟨"retrieved_ok.json", [0x7B, 0x7D]⟩])] := by
  have h := (batch_continues_after_failure (fun _ => false) "example.com" none
      (fun cid _ => if cid = "ok" then NetResult.response 200 [] [0x7B, 0x7D]
                    else NetResult.transportError)).2 "fail" "ok" rfl
  rw [h]
  rfl

/-- Helper for C8: the fallback loop reads only the status code and body of
each response, so replacing the oracle by one that differs at most in response
headers leaves the loop's entire outcome unchanged. -/
theorem tryGateways_ignores_headers (net1 net2 : Gateway → NetResult)
    (h : ∀ g, eraseRespHeaders (net1 g) = eraseRespHeaders (net2 g)) :
    ∀ gws : List Gateway, tryGateways net1 gws = tryGateways net2 gws := by
  intro gws
  induction gws with
  | nil => rfl
  | cons g rest ih =>
    have hg := h g
    cases h1 : net1 g with
    | response s1 hd1 b1 =>
      cases h2 : net2 g with
      | response s2 hd2 b2 =>
        rw [h1, h2] at hg
        unfold eraseRespHeaders at hg
        injection hg with hs hhd hb
        subst hs
        subst hb
        simp [tryGateways, h1, h2, ih]
      | transportError =>
        rw [h1, h2] at hg
        simp [eraseRespHeaders] at hg
    | transportError =>
      cases h2 : net2 g with
      | response s2 hd2 b2 =>
        rw [h1, h2] at hg
        simp [eraseRespHeaders] at hg
      | transportError =>
        simp [tryGateways, h1, h2, ih]

/-- C8: the classification label is a deterministic pure function of the
payload bytes (given the fixed Pillow oracle): identical bytes always receive
the identical label, and the HTTP response headers influence nothing — two
network oracles equal after erasing response headers give identical
classification outcomes on a full retrieval run. -/
theorem classification_pure_of_body (imageOpens : Bytes → Bool) (host : String)
    (jwt : Option String) (net1 net2 : Gateway → NetResult) (cid : String)
    (h : ∀ g, eraseRespHeaders (net1 g) = eraseRespHeaders (net2 g)) :
    runClassify imageOpens host jwt net1 cid = runClassify imageOpens host jwt net2 cid ∧
    (∀ b1 b2 : Bytes, b1 = b2 → classifyBytes imageOpens b1 = classifyBytes imageOpens b2) := by
  constructor
  · unfold runClassify retrieve_from_ipfs
    rw [tryGateways_ignores_headers net1 net2 h]
  · intro b1 b2 hb
    rw [hb]

/-- C8 witness: a response carrying an extra header classifies identically to
the same response without it. -/
theorem classification_pure_of_body_witness :
    runClassify (fun _ => false) "example.com" none
        (fun _ => NetResult.response 200 [("X-Header", "secret")] [0x7B, 0x7D]) "QmW" =
      runClassify (fun _ => false) "example.com" none
        (fun _ => NetResult.response 200 [] [0x7B, 0x7D]) "QmW" :=
  (classification_pure_of_body (fun _ => false) "example.com" none _ _ "QmW" (fun _ => rfl)).1

/-- C4 is false as stated: the payload `0x20 0x7B` (a space, then a brace) has
first non-whitespace byte the brace and no image signature, yet the classifier
labels it unknown and the run saves it as a `.bin` artifact instead of routing
it to the JSON path — the code checks the literal first byte
(`content.startswith(b"...")`), not the first non-whitespace byte, and the
decode-and-parse fallback rejects this payload because it is not valid JSON. -/
theorem classify_leading_ws_brace_not_json :
    firstNonWsByte [0x20, 0x7B] = some 0x7B ∧
    bytesStartWith [0xFF, 0xD8, 0xFF] [0x20, 0x7B] = false ∧
    bytesStartWith [0x89, 0x50, 0x4E, 0x47] [0x20, 0x7B] = false ∧
    classifyBytes (fun _ => false) [0x20, 0x7B] = ContentClass.unknown ∧
    processContent (fun _ => false) [0x20, 0x7B] "cidexample" =
      [⟨"retrieved_cidexample.bin", [0x20, 0x7B]⟩] := by
  refine ⟨rfl, rfl, rfl, rfl, rfl⟩

/-- C4 (amended): if the literal first byte of the payload is a brace or a
bracket, the classifier labels it JSON and the run routes it to the JSON
rendering path, regardless of whether the payload parses. -/
theorem brace_first_byte_routes_json (imageOpens : Bytes → Bool) (content : Bytes)
    (cid : String)
    (hb : bytesStartWith [0x7B] content = true ∨ bytesStartWith [0x5B] content = true) :
    classifyBytes imageOpens content = ContentClass.json ∧
    processContent imageOpens content cid = display_json content cid := by
  cases content with
  | nil => simp [bytesStartWith] at hb
  | cons c cs =>
    have hc : c = 0x7B ∨ c = 0x5B := by
      rcases hb with h | h <;> simp [bytesStartWith] at h <;> omega
    rcases hc with rfl | rfl <;>
      exact ⟨by simp [classifyBytes, bytesStartWith], by simp [processContent, bytesStartWith]⟩

/-- C4 witness: a payload starting with a brace (here a valid JSON object) is
classified JSON and handled by `display_json`. -/
theorem brace_first_byte_routes_json_witness :
    classifyBytes (fun _ => false) [0x7B, 0x22, 0x61, 0x22, 0x3A, 0x31, 0x7D] =
      ContentClass.json ∧
    processContent (fun _ => false) [0x7B, 0x22, 0x61, 0x22, 0x3A, 0x31, 0x7D] "QmV" =
      display_json [0x7B, 0x22, 0x61, 0x22, 0x3A, 0x31, 0x7D] "QmV" :=
  brace_first_byte_routes_json (fun _ => false) [0x7B, 0x22, 0x61, 0x22, 0x3A, 0x31, 0x7D]
    "QmV" (Or.inl rfl)

/-- Case analysis helper: every artifact of `display_json` is either the raw
bytes under a generic extension or the `.json` re-serialization of the parsed
value. -/
theorem display_json_files (content : Bytes) (cid : String) :
    ∀ f ∈ display_json content cid,
      (f.contents = content ∧
        (f.name = "retrieved_" ++ take10 cid ++ ".bin" ∨
         f.name = "retrieved_" ++ take10 cid ++ ".txt")) ∨
      (f.name = "retrieved_" ++ take10 cid ++ ".json" ∧
       ∃ cps v, utf8Decode content = some cps ∧ jsonLoads cps = some v ∧
         f.contents = dumpsVal 0 v) := by
  intro f hf
  cases hd : utf8Decode content with
  | none =>
    simp [display_json, hd] at hf
    subst hf
    exact Or.inl ⟨rfl, Or.inl rfl⟩
  | some cps =>
    cases hl : jsonLoads cps with
    | none =>
      simp [display_json, hd, hl] at hf
      subst hf
      exact Or.inl ⟨rfl, Or.inr rfl⟩
    | some v =>
      by_cases hr : infoRaises v
      · simp [display_json, hd, hl, hr] at hf
        rcases hf with hf | hf
        · subst hf
          exact Or.inr ⟨rfl, cps, v, rfl, hl, rfl⟩
        · subst hf
          exact Or.inl ⟨rfl, Or.inl rfl⟩
      · simp [display_json, hd, hl, hr] at hf
        subst hf
        exact Or.inr ⟨rfl, cps, v, rfl, hl, rfl⟩

/-- Case analysis helper: `display_image` writes the raw bytes, as `.jpg` on
success and `.bin` on failure. -/
theorem display_image_files (imageOpens : Bytes → Bool) (content : Bytes) (cid : String) :
    display_image imageOpens content cid = ⟨"retrieved_" ++ take10 cid ++ ".jpg", content⟩ ∨
    display_image imageOpens content cid = ⟨"retrieved_" ++ take10 cid ++ ".bin", content⟩ := by
  unfold display_image
  by_cases h : imageOpens content <;> simp [h]

/-- Case analysis helper: every artifact of the rendering dispatch comes from
`display_image`, from `display_json`, or is the inline `.bin` save of the
unknown branch. -/
theorem processContent_cases (imageOpens : Bytes → Bool) (content : Bytes) (cid : String) :
    ∀ f ∈ processContent imageOpens content cid,
      f = display_image imageOpens content cid ∨
      f ∈ display_json content cid ∨
      f = ⟨"retrieved_" ++ take10 cid ++ ".bin", content⟩ := by
  intro f hf
  unfold processContent at hf
  repeat' split at hf
  all_goals try simp at hf
  all_goals first
    | exact Or.inl hf
    | exact Or.inr (Or.inl hf)
    | exact Or.inr (Or.inr hf)

/-- C5 (amended): every artifact a rendering pass writes is named
`retrieved_` + the first 10 characters of the identifier + one of `.jpg`,
`.json`, `.bin`, `.txt`; its contents are the raw retrieved bytes, except that
the `.json` artifact of a successfully parsed payload holds the `indent=2`
re-serialization of the parsed value rather than the original bytes. -/
theorem render_artifact_naming (imageOpens : Bytes → Bool) (content : Bytes) (cid : String) :
    ∀ f ∈ processContent imageOpens content cid,
      (f.name = "retrieved_" ++ take10 cid ++ ".jpg" ∨
       f.name = "retrieved_" ++ take10 cid ++ ".json" ∨
       f.name = "retrieved_" ++ take10 cid ++ ".bin" ∨
       f.name = "retrieved_" ++ take10 cid ++ ".txt") ∧
      (f.contents = content ∨
       (f.name = "retrieved_" ++ take10 cid ++ ".json" ∧
        ∃ cps v, utf8Decode content = some cps ∧ jsonLoads cps = some v ∧
          f.contents = dumpsVal 0 v)) := by
  intro f hf
  rcases processContent_cases imageOpens content cid f hf with h | h | h
  · rcases display_image_files imageOpens content cid with hd | hd
    · rw [h, hd]
      exact ⟨Or.inl rfl, Or.inl rfl⟩
    · rw [h, hd]
      exact ⟨Or.inr (Or.inr (Or.inl rfl)), Or.inl rfl⟩
  · rcases display_json_files content cid f h with ⟨hc, hn | hn⟩ | ⟨hn, hex⟩
    · exact ⟨Or.inr (Or.inr (Or.inl hn)), Or.inl hc⟩
    · exact ⟨Or.inr (Or.inr (Or.inr hn)), Or.inl hc⟩
    · exact ⟨Or.inr (Or.inl hn), Or.inr ⟨hn, hex⟩⟩
  · rw [h]
    exact ⟨Or.inr (Or.inr (Or.inl rfl)), Or.inl rfl⟩

/-- C5 is false as stated ("persists the retrieved bytes"): for the payload
`{"a":1}` the run writes exactly one file, the `.json` artifact, and its
contents are the pretty-printed re-serialization — not the retrieved bytes. -/
theorem json_render_rewrites_bytes :
    processContent (fun _ => false) [0x7B, 0x22, 0x61, 0x22, 0x3A, 0x31, 0x7D] "testcid" =
      [⟨"retrieved_testcid.json",
        [0x7B, 0x0A, 0x20, 0x20, 0x22, 0x61, 0x22, 0x3A, 0x20, 0x31, 0x0A, 0x7D]⟩] ∧
    ¬ ∀ f ∈ processContent (fun _ => false) [0x7B, 0x22, 0x61, 0x22, 0x3A, 0x31, 0x7D] "testcid",
        f.contents = [0x7B, 0x22, 0x61, 0x22, 0x3A, 0x31, 0x7D] := by
  exact ⟨rfl, by decide⟩

/-- C5 witness: the amended statement applied at the unrecognized payload
`0xDE 0xAD`, whose single artifact is the raw bytes under the `.bin` name. -/
theorem render_artifact_naming_witness :
    ((⟨"retrieved_x.bin", [0xDE, 0xAD]⟩ : SavedFile).name =
        "retrieved_" ++ take10 "x" ++ ".jpg" ∨
     (⟨"retrieved_x.bin", [0xDE, 0xAD]⟩ : SavedFile).name =
        "retrieved_" ++ take10 "x" ++ ".json" ∨
     (⟨"retrieved_x.bin", [0xDE, 0xAD]⟩ : SavedFile).name =
        "retrieved_" ++ take10 "x" ++ ".bin" ∨
     (⟨"retrieved_x.bin", [0xDE, 0xAD]⟩ : SavedFile).name =
        "retrieved_" ++ take10 "x" ++ ".txt") ∧
    ((⟨"retrieved_x.bin", [0xDE, 0xAD]⟩ : SavedFile).contents = [0xDE, 0xAD] ∨
     ((⟨"retrieved_x.bin", [0xDE, 0xAD]⟩ : SavedFile).name =
        "retrieved_" ++ take10 "x" ++ ".json" ∧
      ∃ cps v, utf8Decode [0xDE, 0xAD] = some cps ∧ jsonLoads cps = some v ∧
        (⟨"retrieved_x.bin", [0xDE, 0xAD]⟩ : SavedFile).contents = dumpsVal 0 v)) :=
  render_artifact_naming (fun _ => false) [0xDE, 0xAD] "x"
    ⟨"retrieved_x.bin", [0xDE, 0xAD]⟩ (by decide)

/-- C6: a parse or classification failure inside a rendering routine degrades
to saving the raw retrieved bytes under a generic extension and cannot escape
the routine (the routines are total): a `UnicodeDecodeError` inside
`display_json` saves the raw bytes as `.bin`, a `JSONDecodeError` saves them
as `.txt`, and a Pillow failure inside `display_image` saves them as `.bin`. -/
theorem render_failure_degrades (imageOpens : Bytes → Bool) (content : Bytes) (cid : String) :
    (utf8Decode content = none →
        display_json content cid = [⟨"retrieved_" ++ take10 cid ++ ".bin", content⟩]) ∧
    (∀ cps, utf8Decode content = some cps → jsonLoads cps = none →
        display_json content cid = [⟨"retrieved_" ++ take10 cid ++ ".txt", content⟩]) ∧
    (imageOpens content = false →
        display_image imageOpens content cid = ⟨"retrieved_" ++ take10 cid ++ ".bin", content⟩) := by
  refine ⟨?_, ?_, ?_⟩
  · intro h
    simp [display_json, h]
  · intro cps h hl
    simp [display_json, h, hl]
  · intro h
    simp [display_image, h]

/-- C6 witness: the three degradation branches at concrete failing payloads
(invalid UTF-8; text that is not JSON; bytes Pillow cannot open). -/
theorem render_failure_degrades_witness :
    display_json [0xFF] "x" = [⟨"retrieved_" ++ take10 "x" ++ ".bin", [0xFF]⟩] ∧
    display_json [0x20, 0x78] "x" = [⟨"retrieved_" ++ take10 "x" ++ ".txt", [0x20, 0x78]⟩] ∧
    display_image (fun _ => false) [0x01] "x" = ⟨"retrieved_" ++ take10 "x" ++ ".bin", [0x01]⟩ :=
  ⟨(render_failure_degrades (fun _ => false) [0xFF] "x").1 rfl,
   (render_failure_degrades (fun _ => false) [0x20, 0x78] "x").2.1 [0x20, 0x78] rfl rfl,
   (render_failure_degrades (fun _ => false) [0x01] "x").2.2 rfl⟩

/-- C10: a successful `/upload` run records the provider's single CID as both
`image_cid` and `metadata_cid`, while a successful `/upload-json` run records
the CIDs of its two distinct pin calls (image, then serialized metadata) in
the two fields — distinct whenever the provider's two answers are. -/
theorem upload_record_cid_equality
    (pin : Nat → Bytes → String → JVal → String) (host wallet : String)
    (imageData : Bytes) (imageFilename : Option String) (metadata : List Nat) (ts : Nat)
    (hdistinct : ∀ b1 f1 m1 b2 f2 m2, pin 0 b1 f1 m1 ≠ pin 1 b2 f2 m2) :
    (∀ rec resp,
        upload_capture pin host wallet imageData imageFilename metadata =
          Except.ok (rec, resp) →
        rec.image_cid = rec.metadata_cid ∧ rec.image_cid = resp.cid) ∧
    (∀ rec resp,
        upload_json_capture pin host wallet imageData metadata ts = Except.ok (rec, resp) →
        rec.image_cid ≠ rec.metadata_cid) := by
  constructor
  · intro rec resp h
    unfold upload_capture at h
    cases hl : jsonLoads metadata with
    | none =>
      rw [hl] at h
      simp at h
    | some v =>
      rw [hl] at h
      cases v <;> simp at h
      obtain ⟨h1, h2⟩ := h
      subst h1
      subst h2
      exact ⟨rfl, rfl⟩
  · intro rec resp h
    unfold upload_json_capture at h
    cases hl : jsonLoads metadata with
    | none =>
      rw [hl] at h
      simp at h
    | some v =>
      rw [hl] at h
      cases v <;> simp at h
      obtain ⟨h1, h2⟩ := h
      subst h1
      exact hdistinct _ _ _ _ _ _

/-- C10 witness: with a provider answering `cidA` to the first call and `cidB`
to the second, `/upload` records the pair `(cidA, cidA)` and `/upload-json`
records the distinct pair `(cidA, cidB)`. -/
theorem upload_record_cid_equality_witness :
    ((⟨"0xw", "cidA", "cidA"⟩ : SupabaseRecord).image_cid =
        (⟨"0xw", "cidA", "cidA"⟩ : SupabaseRecord).metadata_cid ∧
      (⟨"0xw", "cidA", "cidA"⟩ : SupabaseRecord).image_cid =
        (⟨"cidA", none, "https://host/ipfs/cidA", "0xw"⟩ : UploadResponse).cid) ∧
    (⟨"0xw", "cidA", "cidB"⟩ : SupabaseRecord).image_cid ≠
      (⟨"0xw", "cidA", "cidB"⟩ : SupabaseRecord).metadata_cid := by
  have hd : ∀ (b1 : Bytes) (f1 : String) (m1 : JVal) (b2 : Bytes) (f2 : String) (m2 : JVal),
      (fun (i : Nat) (_ : Bytes) (_ : String) (_ : JVal) =>
          if i = 0 then "cidA" else "cidB") 0 b1 f1 m1 ≠
      (fun (i : Nat) (_ : Bytes) (_ : String) (_ : JVal) =>
          if i = 0 then "cidA" else "cidB") 1 b2 f2 m2 := by
    intro b1 f1 m1 b2 f2 m2
    show "cidA" ≠ "cidB"
    decide
  have h := upload_record_cid_equality
      (fun (i : Nat) (_ : Bytes) (_ : String) (_ : JVal) => if i = 0 then "cidA" else "cidB")
      "host" "0xw" [0] none [0x7B, 0x7D] 7 hd
  exact ⟨h.1 ⟨"0xw", "cidA", "cidA"⟩ ⟨"cidA", none, "https://host/ipfs/cidA", "0xw"⟩ rfl,
         h.2 ⟨"0xw", "cidA", "cidB"⟩ ⟨"cidA", some "cidB", "https://host/ipfs/cidA", "0xw"⟩ rfl⟩

end DeepShare
